import Mathlib

/-!
# Verification of the kx-creation task-orchestration core

Shallow embedding of the task store, the background task processors and the
agent pipeline of `src/client/main.py`, `src/client/agents/orchestrator.py`,
`src/client/agents/writer_agent.py` and `src/client/agents/publisher_agent.py`.

Python dictionaries are modelled as association lists over an inductive value
type `Val`; Python truthiness, `dict.get`, `dict.setdefault` and dict update
are modelled exactly.  Timestamps are modelled as an abstract clock (`Nat`)
supplied at each mutation.  Agent collaborators (crawler / analyzer / writer /
publisher) are modelled as total functions returning dictionaries, which is
faithful because every agent method wraps its body in `try/except` and returns
an error dictionary on exception.
-/

set_option autoImplicit false

namespace KX

/-- Python values as they occur in the task-orchestration code:
strings, integers, booleans, lists, string-keyed dicts and `None`. -/
inductive Val where
  | vStr : String → Val
  | vNat : Nat → Val
  | vBool : Bool → Val
  | vList : List Val → Val
  | vDict : List (String × Val) → Val
  | vNone : Val

open Val

/-- A Python dictionary with string keys, in insertion order. -/
abbrev Dict := List (String × Val)

/-- Python truthiness (`bool(v)`): empty strings/lists/dicts, `0`, `False`
and `None` are falsy. -/
def truthy : Val → Bool
  | vStr s => !s.isEmpty
  | vNat n => n != 0
  | vBool b => b
  | vList l => !l.isEmpty
  | vDict d => !d.isEmpty
  | vNone => false

namespace Dict

/-- `d.get(k)` returning `None`-as-absent: first binding of `k`, if any. -/
def lookup (d : Dict) (k : String) : Option Val :=
  match d with
  | [] => none
  | (k', v) :: rest => if k' == k then some v else lookup rest k

/-- `d.get(k, default)`. -/
def getD (d : Dict) (k : String) (v : Val) : Val :=
  (d.lookup k).getD v

/-- `k in d`. -/
def hasKey (d : Dict) (k : String) : Bool :=
  (d.lookup k).isSome

/-- `d[k] = v`: replace the first binding of `k`, or append a new binding. -/
def set (d : Dict) (k : String) (v : Val) : Dict :=
  match d with
  | [] => [(k, v)]
  | (k', v') :: rest => if k' == k then (k, v) :: rest else (k', v') :: set rest k v

/-- `d.setdefault(k, v)`: insert `v` under `k` only when `k` is absent. -/
def setdefault (d : Dict) (k : String) (v : Val) : Dict :=
  if d.hasKey k then d else d ++ [(k, v)]

end Dict

/-- `TaskStatus` from `src/client/models/schemas.py`:
pending / processing / completed / failed. -/
inductive TaskStatus where
  | pending
  | processing
  | completed
  | failed
deriving DecidableEq, Repr

/-- A status is terminal when it is `completed` or `failed`. -/
def TaskStatus.isTerminal : TaskStatus → Bool
  | .completed => true
  | .failed => true
  | _ => false

/-- One record of the in-memory `tasks` dictionary created by
`create_task` in `src/client/main.py` (lines 87–102). -/
structure Task where
  task_id : String
  type : String
  status : TaskStatus
  message : String
  progress : Option String
  data : Option Dict
  error : Option Val
  created_at : Nat
  updated_at : Nat
  completed_at : Option Nat

/-- The process-global `tasks: Dict[str, Dict[str, Any]]` mapping. -/
abbrev Store := List (String × Task)

namespace Store

/-- `task_id in tasks` / `tasks[task_id]` read. -/
def lookup (s : Store) (k : String) : Option Task :=
  match s with
  | [] => none
  | (k', t) :: rest => if k' == k then some t else lookup rest k

/-- `tasks[task_id] = record`: replace or append. -/
def set (s : Store) (k : String) (t : Task) : Store :=
  match s with
  | [] => [(k, t)]
  | (k', t') :: rest => if k' == k then (k, t) :: rest else (k', t') :: set rest k t

end Store

/-- The keyword arguments passed to `update_task` by its call sites in
`src/client/main.py`: each field is `some` exactly when the corresponding
keyword is supplied. -/
structure TaskMut where
  status : Option TaskStatus := none
  message : Option String := none
  progress : Option String := none
  data : Option Dict := none
  error : Option Val := none
  completed_at : Option Nat := none

/-- `tasks[task_id].update(kwargs)`: overwrite exactly the supplied fields. -/
def applyMut (t : Task) (m : TaskMut) : Task :=
  { t with
    status := m.status.getD t.status
    message := m.message.getD t.message
    progress := m.progress.or t.progress
    data := m.data.or t.data
    error := m.error.or t.error
    completed_at := m.completed_at.or t.completed_at }

/-- `update_task` from `src/client/main.py` (lines 105–109): if the id is
present, apply the keyword updates and stamp `updated_at` with the current
clock; if the id is absent, do nothing.  No validation of any kind is
performed on the requested transition. -/
def update_task (clock : Nat) (s : Store) (task_id : String) (m : TaskMut) : Store :=
  match s.lookup task_id with
  | none => s
  | some t => s.set task_id { applyMut t m with updated_at := clock }

/-- `create_task` from `src/client/main.py` (lines 87–102): insert a fresh
Pending record.  The uuid is supplied as `task_id`; `clock` is `datetime.now()`. -/
def create_task (clock : Nat) (s : Store) (task_id : String) (ty : String) : Store :=
  s.set task_id
    { task_id := task_id
      type := ty
      status := .pending
      message := "Task created and queued"
      progress := none
      data := none
      error := none
      created_at := clock
      updated_at := clock
      completed_at := none }

/-! ## Orchestrator (`src/client/agents/orchestrator.py`) -/

open Val

/-- The four agent collaborators as called by `AgentOrchestrator`
(`self.crawler.crawl`, `self.analyzer.analyze`, `self.writer.write`,
`self.publisher.publish`).  Each is a total function returning a dict:
every agent method catches its own exceptions and returns an error dict. -/
structure Agents where
  crawl : String → Bool → Bool → Dict
  analyze : Val → Val → Val → Val → Dict
  write : Dict → String → String → Nat → Dict
  publish : Dict → String → Bool → String → Dict

/-- The orchestrator's failure test for a stage result:
`not result_dict or "error" in result_dict`. -/
def stageFails (d : Dict) : Bool :=
  d.isEmpty || d.hasKey "error"

/-- View a value as a dict (used where the Python code indexes a value that
is a dict by construction). -/
def Val.asDict : Val → Dict
  | vDict d => d
  | _ => []

/-- `AgentOrchestrator.url_to_article` (orchestrator.py lines 69–173):
crawl, then analyze, then write, stopping at the first failing stage.
Returns the workflow result dict paired with the ordered list of agent
methods actually invoked. -/
def url_to_article (ag : Agents) (url article_style target_audience : String)
    (word_count : Nat) (extract_images extract_links : Bool) : Dict × List String :=
  let c := ag.crawl url extract_images extract_links
  if stageFails c then
    ([("success", vBool false),
      ("error", c.getD "error" (vStr "Failed to crawl URL")),
      ("crawl_result", vDict c)],
     ["crawl"])
  else
    let a := ag.analyze (c.getD "title" (vStr "")) (c.getD "content" (vStr ""))
      (c.getD "images" (vList [])) (c.getD "links" (vList []))
    if stageFails a then
      ([("success", vBool false),
        ("error", a.getD "error" (vStr "Failed to analyze content")),
        ("crawl_result", vDict c),
        ("analysis_result", vDict a)],
       ["crawl", "analyze"])
    else
      let w := ag.write a article_style target_audience word_count
      if stageFails w then
        ([("success", vBool false),
          ("error", w.getD "error" (vStr "Failed to write article")),
          ("crawl_result", vDict c),
          ("analysis_result", vDict a),
          ("article_result", vDict w)],
         ["crawl", "analyze", "write"])
      else
        ([("success", vBool true),
          ("crawl_result", vDict c),
          ("analysis_result", vDict a),
          ("article_result", vDict w)],
         ["crawl", "analyze", "write"])

/-- `AgentOrchestrator.url_to_wechat` (orchestrator.py lines 175–252):
run `url_to_article` (word_count 1000, images on, links off); on its failure
return its result unchanged; otherwise publish.  When publishing fails the
workflow still returns `success=True` with `publish_success=False` and all
prior results ("Still return article results even if publishing fails"). -/
def url_to_wechat (ag : Agents) (url article_style target_audience author : String)
    (draft_only : Bool) : Dict × List String :=
  let (aw, log) := url_to_article ag url article_style target_audience 1000 true false
  if !(truthy (aw.getD "success" vNone)) then
    (aw, log)
  else
    let p := ag.publish (aw.getD "article_result" (vDict [])).asDict author draft_only "wechat"
    if p.isEmpty || !(truthy (p.getD "success" vNone)) then
      ([("success", vBool true),
        ("publish_success", vBool false),
        ("crawl_result", aw.getD "crawl_result" vNone),
        ("analysis_result", aw.getD "analysis_result" vNone),
        ("article_result", aw.getD "article_result" vNone),
        ("publish_result", vDict p)],
       log ++ ["publish"])
    else
      ([("success", vBool true),
        ("publish_success", vBool true),
        ("crawl_result", aw.getD "crawl_result" vNone),
        ("analysis_result", aw.getD "analysis_result" vNone),
        ("article_result", aw.getD "article_result" vNone),
        ("publish_result", vDict p)],
       log ++ ["publish"])

/-! ## Background task processors (`src/client/main.py`) -/

/-- Outcome of the orchestrator call as seen by a background processor:
`.ok d` is the returned workflow dict, `.error e` models an exception
escaping the orchestrator call (caught by the processor's `except`). -/
abbrev WorkflowOutcome := Except String Dict

/-- The first update issued by `process_url_to_article_task` (main.py
lines 115–120): move the task to Processing. -/
def articleProcessingMut : TaskMut :=
  { status := some .processing
    message := some "Processing URL to article workflow"
    progress := some "Step 1/3: Crawling URL" }

/-- The single terminal update issued by `process_url_to_article_task`
(main.py lines 134–159): Completed with the workflow dict as `data`, or
Failed with the error message; both stamp `completed_at := clock`. -/
def articleTerminalMut (clock : Nat) (wf : WorkflowOutcome) : TaskMut :=
  match wf with
  | .ok d =>
    if truthy (d.getD "success" vNone) then
      { status := some .completed
        message := some "Article created successfully"
        data := some d
        completed_at := some clock }
    else
      { status := some .failed
        message := some "Failed to create article"
        error := some (d.getD "error" (vStr "Unknown error"))
        completed_at := some clock }
  | .error e =>
    { status := some .failed
      message := some "Task processing error"
      error := some (vStr e)
      completed_at := some clock }

/-- `process_url_to_article_task` (main.py lines 112–159): the Processing
update at clock `t0`, then exactly one terminal update at clock `t0 + 1`. -/
def process_url_to_article_task (t0 : Nat) (s : Store) (task_id : String)
    (wf : WorkflowOutcome) : Store :=
  update_task (t0 + 1) (update_task t0 s task_id articleProcessingMut) task_id
    (articleTerminalMut (t0 + 1) wf)

/-- The first update issued by `process_url_to_wechat_task` (main.py
lines 165–170). -/
def wechatProcessingMut : TaskMut :=
  { status := some .processing
    message := some "Processing URL to WeChat workflow"
    progress := some "Step 1/4: Crawling URL" }

/-- The single terminal update issued by `process_url_to_wechat_task`
(main.py lines 183–208): on a successful workflow the completion message
depends on `result.get("publish_success")`. -/
def wechatTerminalMut (clock : Nat) (wf : WorkflowOutcome) : TaskMut :=
  match wf with
  | .ok d =>
    if truthy (d.getD "success" vNone) then
      { status := some .completed
        message := some (if truthy (d.getD "publish_success" vNone) then
            "Article created and published successfully"
          else
            "Article created, but publishing failed")
        data := some d
        completed_at := some clock }
    else
      { status := some .failed
        message := some "Failed to process workflow"
        error := some (d.getD "error" (vStr "Unknown error"))
        completed_at := some clock }
  | .error e =>
    { status := some .failed
      message := some "Task processing error"
      error := some (vStr e)
      completed_at := some clock }

/-- `process_url_to_wechat_task` (main.py lines 162–208). -/
def process_url_to_wechat_task (t0 : Nat) (s : Store) (task_id : String)
    (wf : WorkflowOutcome) : Store :=
  update_task (t0 + 1) (update_task t0 s task_id wechatProcessingMut) task_id
    (wechatTerminalMut (t0 + 1) wf)

/-! ## Polling endpoints (`src/client/main.py`) -/

/-- Body of `TaskStatusResponse` (schemas.py lines 132–139). -/
structure TaskStatusResponse where
  task_id : String
  status : TaskStatus
  message : String
  progress : Option String
  created_at : Nat
  updated_at : Nat

/-- Body of `TaskResultResponse` (schemas.py lines 142–149). -/
structure TaskResultResponse where
  task_id : String
  status : TaskStatus
  data : Option Dict
  error : Option Val
  created_at : Nat
  completed_at : Option Nat

/-- An HTTP error as raised by `HTTPException(status_code, detail)`. -/
structure HttpError where
  status_code : Nat
  detail : String
deriving DecidableEq

/-- `GET /api/task/{task_id}/status` (main.py lines 281–300): 404 when the id
is unknown, otherwise the task's status, message and progress.  The handler
only reads, so it returns the store unchanged. -/
def get_task_status (s : Store) (task_id : String) :
    Except HttpError TaskStatusResponse × Store :=
  match s.lookup task_id with
  | none => (.error ⟨404, "Task not found"⟩, s)
  | some t =>
    (.ok { task_id := task_id
           status := t.status
           message := t.message
           progress := t.progress
           created_at := t.created_at
           updated_at := t.updated_at }, s)

/-- `GET /api/task/{task_id}/result` (main.py lines 303–322): 404 when the id
is unknown, otherwise the task's status, stored data and error. -/
def get_task_result (s : Store) (task_id : String) :
    Except HttpError TaskResultResponse × Store :=
  match s.lookup task_id with
  | none => (.error ⟨404, "Task not found"⟩, s)
  | some t =>
    (.ok { task_id := task_id
           status := t.status
           data := t.data
           error := t.error
           created_at := t.created_at
           completed_at := t.completed_at }, s)

/-! ## WriterAgent (`src/client/agents/writer_agent.py`) -/

/-- Python `v[:n]` : defined for strings and lists, a `TypeError` otherwise. -/
def pySlice (v : Val) (n : Nat) : Except String Val :=
  match v with
  | vStr s => .ok (vStr (s.take n))
  | vList l => .ok (vList (l.take n))
  | _ => .error "TypeError: value is not subscriptable by a slice"

/-- Python `len(v.split())` : defined for strings, an `AttributeError` otherwise. -/
def pySplitCount (v : Val) : Except String Nat :=
  match v with
  | vStr s => .ok (((s.split Char.isWhitespace).filter (fun w => !w.isEmpty)).length)
  | _ => .error "AttributeError: value has no attribute split"

/-- Is this value a Python `str`? -/
def isStrVal : Val → Bool
  | vStr _ => true
  | _ => false

/-- Python `", ".join(v)` : defined for strings, dicts (iterating keys) and
lists of strings; a `TypeError` otherwise.  Only raising behaviour matters
to the embedding, so the joined text is not computed. -/
def pyJoinOk (v : Val) : Except String Unit :=
  match v with
  | vStr _ => .ok ()
  | vDict _ => .ok ()
  | vList l => if l.all isStrVal
      then .ok () else .error "TypeError: sequence item is not a string"
  | _ => .error "TypeError: can only join an iterable of strings"

/-- Coerce to a string for `.lower()` / `.startswith` (`AttributeError` otherwise). -/
def pyAsStr (v : Val) : Except String String :=
  match v with
  | vStr s => .ok s
  | _ => .error "AttributeError: value has no attribute lower"

/-- The `title` seed of `_create_fallback_article` (lines 237–238): the first
non-blank stripped line of the response, or a slice of the analysis summary
(the slice raising on a non-subscriptable summary). -/
def fallbackTitle0 (response_text : String) (analysis : Dict) : Except String Val :=
  match (((response_text.splitOn "\n").map String.trim).filter (fun l => !l.isEmpty)).head? with
  | some l => .ok (vStr l)
  | none => pySlice (analysis.getD "summary" (vStr "Article")) 100

/-- `WriterAgent._create_fallback_article` (writer_agent.py lines 217–254):
take the first non-blank line of the model response as title (or a slice of
the analysis summary), strip a leading `title:` prefix, and assemble a full
article dict around the raw response text. -/
def create_fallback_article (response_text : String) (analysis : Dict)
    (style : String) : Except String Dict :=
  match fallbackTitle0 response_text analysis with
  | .error e => .error e
  | .ok t0 =>
    match pyAsStr t0 with
    | .error e => .error e
    | .ok s =>
      match pySlice (analysis.getD "summary" (vStr "")) 200 with
      | .error e => .error e
      | .ok summary =>
        match pySlice (analysis.getD "themes" (vList [])) 5 with
        | .error e => .error e
        | .ok tags =>
          .ok [("title", if s.toLower.startsWith "title:" then vStr ((s.drop 6).trim)
                  else vStr s),
               ("content", vStr response_text), ("summary", summary), ("tags", tags),
               ("word_count", vNat (((response_text.split Char.isWhitespace).filter
                  (fun w => !w.isEmpty)).length)),
               ("style", vStr style)]

/-- The `setdefault` block closing `WriterAgent.write` (lines 331–337).
Python evaluates each default expression eagerly, so a badly typed analysis
summary or article content raises here even when the key is present. -/
def ensureArticleFields (analysis : Dict) (style : String) (d0 : Dict) :
    Except String Dict :=
  match pySlice (analysis.getD "summary" (vStr "")) 200 with
  | .error e => .error e
  | .ok sumD =>
    match pySplitCount (Dict.getD ((((d0.setdefault "title" (vStr "Untitled Article")).setdefault
        "content" (vStr "Content not generated")).setdefault "summary" sumD).setdefault
        "tags" (analysis.getD "themes" (vList []))) "content" (vStr "")) with
    | .error e => .error e
    | .ok wcD =>
      .ok (Dict.set (((((d0.setdefault "title" (vStr "Untitled Article")).setdefault
        "content" (vStr "Content not generated")).setdefault "summary" sumD).setdefault
        "tags" (analysis.getD "themes" (vList []))).setdefault "word_count" (vNat wcD))
        "style" (vStr style))

/-- How the model call inside `WriterAgent.write` (lines 308–329) plays out:
no model configured, an exception inside the inner `try` (model call or
`json.loads`), a response without an embedded `{...}` object, or a response
whose extracted JSON object parses to `d`. -/
inductive ModelCase where
  | noModel
  | innerRaised
  | noJsonFound (response_text : String)
  | parsed (d : Dict)

/-- The `article_result` produced by the model branch of `WriterAgent.write`
(lines 308–329): the inner `try` catches a model-call or `json.loads`
exception and falls back; a fallback raising inside the `except` block (or in
the no-model branch) escapes to the outer handler. -/
def articleFromModel (analysis : Dict) (mc : ModelCase) (article_style : String) :
    Except String Dict :=
  match mc with
  | .noModel => create_fallback_article "No model available" analysis article_style
  | .innerRaised => create_fallback_article "Failed to generate" analysis article_style
  | .noJsonFound txt =>
    match create_fallback_article txt analysis article_style with
    | .ok d => .ok d
    | .error _ => create_fallback_article "Failed to generate" analysis article_style
  | .parsed d => .ok d

/-- The body of `WriterAgent.write` up to the outer `except` (lines 275–340):
the truthiness guard on `analysis_result`, the prompt construction (whose
`", ".join` calls can raise), the model branch, and the `setdefault` block;
`.error` models an exception escaping to the outer handler. -/
def writeCore (analysis : Dict) (mc : ModelCase) (article_style : String) :
    Except String Dict :=
  if analysis.isEmpty then
    .ok [("error", vStr "No analysis result provided")]
  else
    match pyJoinOk (analysis.getD "key_points" (vList [])) with
    | .error e => .error e
    | .ok _ =>
      match pyJoinOk (analysis.getD "themes" (vList [])) with
      | .error e => .error e
      | .ok _ =>
        match articleFromModel analysis mc article_style with
        | .error e => .error e
        | .ok article => ensureArticleFields analysis article_style article

namespace WriterAgent

/-- `WriterAgent.write` (writer_agent.py lines 256–344): the outer `except`
turns any escaping exception into `{"error": str(e)}`. -/
def write (analysis : Dict) (mc : ModelCase) (article_style : String) : Dict :=
  match writeCore analysis mc article_style with
  | .ok d => d
  | .error e => [("error", vStr e)]

end WriterAgent

/-! ## PublisherAgent (`src/client/agents/publisher_agent.py`) -/

/-- How the call into `services.wechat.publish_to_wechat` plays out as seen
by `PublisherAgent._publish_to_wechat`: the import fails, the call raises,
or the service returns a dict. -/
inductive WeChatOutcome where
  | importFailed
  | raised (e : String)
  | ok (d : Dict)

namespace PublisherAgent

/-- `PublisherAgent._publish_to_wechat` (publisher_agent.py lines 121–166):
load the WeChat service, evaluate the digest slice
`article.get("summary", "")[:120]` (which can itself raise), then call the
service; every failure is caught and turned into a `success=False` dict. -/
def publishToWechat (article : Dict) (w : WeChatOutcome) : Dict :=
  match w with
  | .importFailed =>
    [("success", vBool false), ("platform", vStr "wechat"),
     ("message", vStr "WeChat service not configured. Please check WECHAT_APP_ID and WECHAT_APP_SECRET in .env file")]
  | .raised e =>
    match pySlice (article.getD "summary" (vStr "")) 120 with
    | .error de =>
      [("success", vBool false), ("platform", vStr "wechat"),
       ("message", vStr ("Publishing error: " ++ de))]
    | .ok _ =>
      [("success", vBool false), ("platform", vStr "wechat"),
       ("message", vStr ("Publishing error: " ++ e))]
  | .ok d =>
    match pySlice (article.getD "summary" (vStr "")) 120 with
    | .error de =>
      [("success", vBool false), ("platform", vStr "wechat"),
       ("message", vStr ("Publishing error: " ++ de))]
    | .ok _ => d

/-- `PublisherAgent.publish` (publisher_agent.py lines 168–219): reject an
empty article or one without a truthy title and content, dispatch to the
WeChat path for platform `"wechat"`, and report any other platform as
unsupported. -/
def publish (article : Dict) (platform : String) (w : WeChatOutcome) : Dict :=
  if article.isEmpty then
    [("error", vStr "No article provided"), ("success", vBool false)]
  else if !(truthy (article.getD "title" vNone)) || !(truthy (article.getD "content" vNone)) then
    [("error", vStr "Article missing required fields"), ("success", vBool false)]
  else if platform == "wechat" then
    publishToWechat article w
  else
    [("success", vBool false), ("platform", vStr platform),
     ("message", vStr ("Platform \x27" ++ platform ++ "\x27 not supported yet"))]

end PublisherAgent

/-! ## Lifecycle traces

The three stores a poller can observe along `POST /api/url-to-article`:
after `create_task` (`articleS1`), after the processor's Processing update
(`articleS2`) and after the processor's terminal update (`articleS3`).
`articleS3` is definitionally the store `process_url_to_article_task (t0+1)`
builds from `articleS1`. -/

def articleS1 (t0 : Nat) (s0 : Store) (tid : String) : Store :=
  create_task t0 s0 tid "url_to_article"

def articleS2 (t0 : Nat) (s0 : Store) (tid : String) : Store :=
  update_task (t0 + 1) (articleS1 t0 s0 tid) tid articleProcessingMut

def articleS3 (t0 : Nat) (s0 : Store) (tid : String) (wf : WorkflowOutcome) : Store :=
  update_task (t0 + 2) (articleS2 t0 s0 tid) tid (articleTerminalMut (t0 + 2) wf)

/-- The statuses observable by polling along the article lifecycle. -/
def articleStatusTrace (t0 : Nat) (s0 : Store) (tid : String)
    (wf : WorkflowOutcome) : List (Option TaskStatus) :=
  [((articleS1 t0 s0 tid).lookup tid).map Task.status,
   ((articleS2 t0 s0 tid).lookup tid).map Task.status,
   ((articleS3 t0 s0 tid wf).lookup tid).map Task.status]

/-- The terminal status the article processor writes for a given workflow
outcome. -/
def finalArticleStatus : WorkflowOutcome → TaskStatus
  | .ok d => if truthy (d.getD "success" vNone) then .completed else .failed
  | .error _ => .failed

/-- The Pending record `create_task` inserts for the article pipeline. -/
def articlePendingRecord (t0 : Nat) (tid : String) : Task :=
  { task_id := tid, type := "url_to_article", status := .pending
    message := "Task created and queued", progress := none
    data := none, error := none, created_at := t0
    updated_at := t0, completed_at := none }

/-- The article-pipeline task record after the Processing update. -/
def articleRunningRecord (t0 : Nat) (tid : String) : Task :=
  { task_id := tid, type := "url_to_article", status := .processing
    message := "Processing URL to article workflow"
    progress := some "Step 1/3: Crawling URL"
    data := none, error := none, created_at := t0
    updated_at := t0 + 1, completed_at := none }

/-- The article-pipeline task record after the terminal update. -/
def articleFinalRecord (t0 : Nat) (tid : String) (wf : WorkflowOutcome) : Task :=
  match wf with
  | .ok d =>
    if truthy (d.getD "success" vNone) then
      { task_id := tid, type := "url_to_article", status := .completed
        message := "Article created successfully"
        progress := some "Step 1/3: Crawling URL"
        data := some d, error := none, created_at := t0
        updated_at := t0 + 2, completed_at := some (t0 + 2) }
    else
      { task_id := tid, type := "url_to_article", status := .failed
        message := "Failed to create article"
        progress := some "Step 1/3: Crawling URL"
        data := none, error := some (d.getD "error" (vStr "Unknown error"))
        created_at := t0, updated_at := t0 + 2, completed_at := some (t0 + 2) }
  | .error e =>
    { task_id := tid, type := "url_to_article", status := .failed
      message := "Task processing error"
      progress := some "Step 1/3: Crawling URL"
      data := none, error := some (vStr e), created_at := t0
      updated_at := t0 + 2, completed_at := some (t0 + 2) }

/-! ## Concrete fixtures -/

/-- A concrete completed task record, as it looks after a successful run. -/
def demoTask : Task :=
  { task_id := "t1"
    type := "url_to_article"
    status := .completed
    message := "Article created successfully"
    progress := some "Step 1/3: Crawling URL"
    data := none
    error := none
    created_at := 0
    updated_at := 3
    completed_at := some 3 }

/-- A one-task store holding `demoTask` under id `"t1"`. -/
def demoStore : Store := [("t1", demoTask)]

/-- Constant-result stub agents, used to instantiate pipeline theorems. -/
def stubAgents (c a w p : Dict) : Agents :=
  { crawl := fun _ _ _ => c
    analyze := fun _ _ _ _ => a
    write := fun _ _ _ _ => w
    publish := fun _ _ _ _ => p }

/-- A successful crawl stub result. -/
def okCrawl : Dict := [("title", vStr "T"), ("content", vStr "C")]

/-- A successful analysis stub result. -/
def okAnalysis : Dict := [("summary", vStr "S"), ("themes", vList [vStr "tech"])]

/-- A successful article stub result. -/
def okArticle : Dict := [("title", vStr "A"), ("content", vStr "B C D")]

/-- A failing stage stub result. -/
def errDict : Dict := [("error", vStr "stage blew up")]

/-- A failing publisher stub result (`success=False`, as
`PublisherAgent._publish_to_wechat` returns when the service is missing). -/
def failPublish : Dict :=
  [("success", vBool false), ("platform", vStr "wechat"),
   ("message", vStr "WeChat service not configured. Please check WECHAT_APP_ID and WECHAT_APP_SECRET in .env file")]

/-- Stub agents whose first three stages succeed and whose publisher fails. -/
def wechatStubAgents : Agents := stubAgents okCrawl okAnalysis okArticle failPublish

/-- The workflow result of `url_to_wechat` run on `wechatStubAgents`. -/
def c1Workflow : Dict × List String :=
  url_to_wechat wechatStubAgents "http://example.com" "professional" "general"
    "KX Smart Creation" false

/-- The task store after creating task `"t1"` for the WeChat pipeline and
running `process_url_to_wechat_task` on the `c1Workflow` outcome. -/
def c1FinalStore : Store :=
  process_url_to_wechat_task 1 (create_task 0 [] "t1" "url_to_wechat") "t1"
    (.ok c1Workflow.1)

/-- The Pending record created for the WeChat demo task `"t1"`. -/
def wechatPendingRecord0 : Task :=
  { task_id := "t1", type := "url_to_wechat", status := .pending
    message := "Task created and queued", progress := none
    data := none, error := none, created_at := 0
    updated_at := 0, completed_at := none }

/-- Stub agents whose crawl and analyze succeed and whose write fails. -/
def c2Agents : Agents := stubAgents okCrawl okAnalysis errDict []

/-- The workflow result of `url_to_article` run on `c2Agents`: the write
(Composer) stage fails after two successful stages. -/
def c2Workflow : Dict × List String :=
  url_to_article c2Agents "http://example.com" "professional" "general" 500 true true

/-- The store after creating task `"t2"` and processing the failed
`c2Workflow` outcome. -/
def c2FinalStore : Store :=
  process_url_to_article_task 1 (create_task 0 [] "t2" "url_to_article") "t2"
    (.ok c2Workflow.1)

/-! ## Helper lemmas -/

theorem Store.lookup_set_self (s : Store) (k : String) (t : Task) :
    (s.set k t).lookup k = some t := by
  induction s with
  | nil => simp [Store.set, Store.lookup]
  | cons hd tl ih =>
    obtain ⟨k', t'⟩ := hd
    cases h : (k' == k) with
    | true => simp [Store.set, Store.lookup, h]
    | false => simp [Store.set, Store.lookup, h, ih]

theorem update_task_lookup_present {s : Store} {tid : String} {t : Task}
    (clock : Nat) (m : TaskMut) (h : s.lookup tid = some t) :
    (update_task clock s tid m).lookup tid
      = some { applyMut t m with updated_at := clock } := by
  simp [update_task, h, Store.lookup_set_self]

theorem update_task_of_absent {s : Store} {tid : String}
    (clock : Nat) (m : TaskMut) (h : s.lookup tid = none) :
    update_task clock s tid m = s := by
  simp [update_task, h]

theorem create_task_lookup (clock : Nat) (s : Store) (tid ty : String) :
    (create_task clock s tid ty).lookup tid
      = some { task_id := tid, type := ty, status := .pending
               message := "Task created and queued", progress := none
               data := none, error := none, created_at := clock
               updated_at := clock, completed_at := none } :=
  Store.lookup_set_self s tid _

theorem articleS1_lookup (t0 : Nat) (s0 : Store) (tid : String) :
    (articleS1 t0 s0 tid).lookup tid = some (articlePendingRecord t0 tid) :=
  create_task_lookup t0 s0 tid _

theorem articleS2_lookup (t0 : Nat) (s0 : Store) (tid : String) :
    (articleS2 t0 s0 tid).lookup tid = some (articleRunningRecord t0 tid) :=
  update_task_lookup_present (t0 + 1) articleProcessingMut (articleS1_lookup t0 s0 tid)

theorem articleS3_lookup (t0 : Nat) (s0 : Store) (tid : String) (wf : WorkflowOutcome) :
    (articleS3 t0 s0 tid wf).lookup tid = some (articleFinalRecord t0 tid wf) := by
  refine Eq.trans (update_task_lookup_present (t0 + 2) (articleTerminalMut (t0 + 2) wf)
    (articleS2_lookup t0 s0 tid)) ?_
  cases wf with
  | ok d =>
    cases ht : truthy (Dict.getD d "success" vNone) <;>
      simp [articleTerminalMut, articleFinalRecord, applyMut, articleRunningRecord, ht]
  | error e =>
    simp [articleTerminalMut, articleFinalRecord, applyMut, articleRunningRecord]

/-! ## Claim theorems: task store -/

/-- C3 (counterexample): the store does not reject regressions.  Updating the
Completed task `"t1"` of `demoStore` back to Pending succeeds and the stored
status regresses from `completed` to `pending`, so transitions violating the
monotonic ordering are not rejected by `update_task`. -/
theorem update_task_accepts_status_regression :
    demoTask.status = TaskStatus.completed ∧
    ((update_task 9 demoStore "t1" { status := some .pending }).lookup "t1").map
        Task.status = some TaskStatus.pending := by
  exact ⟨rfl, rfl⟩

/-- C3 (amended): `update_task` performs no validation of status transitions:
for any stored task and any requested status — including one that regresses
out of a terminal status — the store simply applies it. -/
theorem update_task_applies_any_status (clock : Nat) (s : Store) (tid : String)
    (m : TaskMut) (t : Task) (st : TaskStatus)
    (h : s.lookup tid = some t) (hm : m.status = some st) :
    ((update_task clock s tid m).lookup tid).map Task.status = some st := by
  rw [update_task_lookup_present clock m h]
  simp [applyMut, hm]

/-- C3 (amended, witness): instantiate the amended theorem on `demoStore`,
regressing the Completed task `"t1"` to Running. -/
theorem update_task_applies_any_status_witness :
    ((update_task 7 demoStore "t1" { status := some .processing }).lookup "t1").map
        Task.status = some TaskStatus.processing :=
  update_task_applies_any_status 7 demoStore "t1" _ demoTask .processing rfl rfl

/-- C4 (counterexample): updating an id absent from the store is a silent
no-op: with `"ghost"` not in `demoStore`, `update_task` returns the store
unchanged and signals no error, contradicting the claim that it fails with an
UnknownTask error. -/
theorem update_task_unknown_id_silently_ignored :
    demoStore.lookup "ghost" = none ∧
    update_task 9 demoStore "ghost"
        { status := some .failed, error := some (vStr "boom") } = demoStore := by
  exact ⟨rfl, rfl⟩

/-- C4 (amended): for every id absent from the store, `update_task` silently
does nothing: it returns the store unchanged and reports no error (its Python
counterpart returns `None` either way). -/
theorem update_task_unknown_id_noop (clock : Nat) (s : Store) (tid : String)
    (m : TaskMut) (h : s.lookup tid = none) :
    update_task clock s tid m = s := by
  simp [update_task, h]

/-- C4 (amended, witness): instantiate the no-op theorem at the concrete
absent id `"ghost"` of `demoStore`. -/
theorem update_task_unknown_id_noop_witness :
    update_task 9 demoStore "ghost" { status := some .failed } = demoStore :=
  update_task_unknown_id_noop 9 demoStore "ghost" _ rfl

/-- C6 (confirmed): along `POST /api/url-to-article` the observable statuses
of a task are exactly `Pending` (at creation), then `Processing` (before any
stage runs), then a single terminal status; no store write follows the
terminal one.  The last conjunct ties the traced stores to the ones
`process_url_to_article_task` actually builds. -/
theorem article_task_status_trace_monotone (t0 : Nat) (s0 : Store) (tid : String)
    (wf : WorkflowOutcome) :
    articleStatusTrace t0 s0 tid wf
      = [some .pending, some .processing, some (finalArticleStatus wf)]
    ∧ (finalArticleStatus wf).isTerminal = true
    ∧ articleS3 t0 s0 tid wf
      = process_url_to_article_task (t0 + 1) (articleS1 t0 s0 tid) tid wf := by
  refine ⟨?_, ?_, rfl⟩
  · simp only [articleStatusTrace, articleS1_lookup, articleS2_lookup, articleS3_lookup,
      Option.map_some']
    cases wf with
    | ok d =>
      cases ht : truthy (Dict.getD d "success" vNone) <;>
        simp [articlePendingRecord, articleRunningRecord, articleFinalRecord,
          finalArticleStatus, ht]
    | error e =>
      simp [articlePendingRecord, articleRunningRecord, articleFinalRecord,
        finalArticleStatus]
  · cases wf with
    | ok d =>
      cases ht : truthy (Dict.getD d "success" vNone) <;>
        simp [finalArticleStatus, TaskStatus.isTerminal, ht]
    | error e => simp [finalArticleStatus, TaskStatus.isTerminal]

/-- C7 (confirmed): every `update_task` on a present id stamps `updated_at`
with the current clock, and along the article lifecycle `completed_at` is
`None` at every non-terminal state and is set exactly by the terminal
update. -/
theorem update_refreshes_updated_at_and_completed_at_terminal_only :
    (∀ (clock : Nat) (s : Store) (tid : String) (m : TaskMut) (t : Task),
      s.lookup tid = some t →
      ((update_task clock s tid m).lookup tid).map Task.updated_at = some clock)
    ∧ (∀ (t0 : Nat) (s0 : Store) (tid : String) (wf : WorkflowOutcome),
      (((articleS1 t0 s0 tid).lookup tid).map Task.completed_at = some none)
      ∧ (((articleS2 t0 s0 tid).lookup tid).map Task.completed_at = some none)
      ∧ (((articleS3 t0 s0 tid wf).lookup tid).map Task.completed_at = some (some (t0 + 2)))
      ∧ (((articleS1 t0 s0 tid).lookup tid).map (fun u => u.status.isTerminal) = some false)
      ∧ (((articleS2 t0 s0 tid).lookup tid).map (fun u => u.status.isTerminal) = some false)
      ∧ (((articleS3 t0 s0 tid wf).lookup tid).map (fun u => u.status.isTerminal) = some true)) := by
  constructor
  · intro clock s tid m t h
    rw [update_task_lookup_present clock m h]
    rfl
  · intro t0 s0 tid wf
    simp only [articleS1_lookup, articleS2_lookup, articleS3_lookup, Option.map_some']
    cases wf with
    | ok d =>
      cases ht : truthy (Dict.getD d "success" vNone) <;>
        simp [articlePendingRecord, articleRunningRecord, articleFinalRecord,
          TaskStatus.isTerminal, ht]
    | error e =>
      simp [articlePendingRecord, articleRunningRecord, articleFinalRecord,
        TaskStatus.isTerminal]

/-- C7 (witness): the refresh half applied to `demoStore` at clock 9. -/
theorem update_refreshes_updated_at_witness :
    ((update_task 9 demoStore "t1" { message := some "x" }).lookup "t1").map
        Task.updated_at = some 9 :=
  update_refreshes_updated_at_and_completed_at_terminal_only.1 9 demoStore "t1" _ demoTask rfl

/-- C8 (confirmed): `GET /api/task/{id}/status` returns 404 and an unchanged
store for an unknown id, and for a stored id returns exactly that task's
status, message and progress (with its timestamps), again leaving the store
unchanged. -/
theorem get_task_status_contract (s : Store) (tid : String) :
    (s.lookup tid = none →
      get_task_status s tid = (.error ⟨404, "Task not found"⟩, s))
    ∧ (∀ t : Task, s.lookup tid = some t →
      get_task_status s tid
        = (.ok { task_id := tid, status := t.status, message := t.message
                 progress := t.progress, created_at := t.created_at
                 updated_at := t.updated_at }, s)) := by
  constructor
  · intro h; simp [get_task_status, h]
  · intro t h; simp [get_task_status, h]

/-- C8 (witness): both branches instantiated on `demoStore` — the absent id
`"ghost"` yields 404, the stored id `"t1"` yields `demoTask`'s fields. -/
theorem get_task_status_contract_witness :
    get_task_status demoStore "ghost" = (.error ⟨404, "Task not found"⟩, demoStore)
    ∧ get_task_status demoStore "t1"
      = (.ok { task_id := "t1", status := demoTask.status, message := demoTask.message
               progress := demoTask.progress, created_at := demoTask.created_at
               updated_at := demoTask.updated_at }, demoStore) :=
  ⟨(get_task_status_contract demoStore "ghost").1 rfl,
   (get_task_status_contract demoStore "t1").2 demoTask rfl⟩

/-! ## Claim theorems: orchestrator pipelines -/

/-- C5 (confirmed): in `url_to_article` the first failing stage is final: if
crawl (resp. analyze, write) fails, the invocation log stops at that stage —
each earlier stage was invoked exactly once and no later agent method runs,
so there is no orchestrator retry — and the run returns `success=False`
carrying the failing stage's error message. -/
theorem url_to_article_first_failure_final (ag : Agents)
    (url st au : String) (wc : Nat) (im lk : Bool) (c a w : Dict)
    (hc : c = ag.crawl url im lk)
    (ha : a = ag.analyze (c.getD "title" (vStr "")) (c.getD "content" (vStr ""))
      (c.getD "images" (vList [])) (c.getD "links" (vList [])))
    (hw : w = ag.write a st au wc) :
    (stageFails c = true →
      url_to_article ag url st au wc im lk
        = ([("success", vBool false),
            ("error", c.getD "error" (vStr "Failed to crawl URL")),
            ("crawl_result", vDict c)], ["crawl"]))
    ∧ (stageFails c = false → stageFails a = true →
      url_to_article ag url st au wc im lk
        = ([("success", vBool false),
            ("error", a.getD "error" (vStr "Failed to analyze content")),
            ("crawl_result", vDict c), ("analysis_result", vDict a)],
           ["crawl", "analyze"]))
    ∧ (stageFails c = false → stageFails a = false → stageFails w = true →
      url_to_article ag url st au wc im lk
        = ([("success", vBool false),
            ("error", w.getD "error" (vStr "Failed to write article")),
            ("crawl_result", vDict c), ("analysis_result", vDict a),
            ("article_result", vDict w)],
           ["crawl", "analyze", "write"])) := by
  subst hw; subst ha; subst hc
  refine ⟨?_, ?_, ?_⟩
  · intro h1
    simp [url_to_article, h1]
  · intro h1 h2
    simp [url_to_article, h1, h2]
  · intro h1 h2 h3
    simp [url_to_article, h1, h2, h3]

/-- C5 (witness): each failure position instantiated with concrete stub
agents — a failing crawl, a failing analyze after a good crawl, and a
failing write after good crawl and analyze. -/
theorem url_to_article_first_failure_final_witness :
    (url_to_article (stubAgents errDict [] [] []) "u" "professional" "general" 500 true true
      = ([("success", vBool false), ("error", vStr "stage blew up"),
          ("crawl_result", vDict errDict)], ["crawl"]))
    ∧ (url_to_article (stubAgents okCrawl errDict [] []) "u" "professional" "general" 500 true true
      = ([("success", vBool false), ("error", vStr "stage blew up"),
          ("crawl_result", vDict okCrawl), ("analysis_result", vDict errDict)],
         ["crawl", "analyze"]))
    ∧ (url_to_article (stubAgents okCrawl okAnalysis errDict []) "u" "professional" "general" 500 true true
      = ([("success", vBool false), ("error", vStr "stage blew up"),
          ("crawl_result", vDict okCrawl), ("analysis_result", vDict okAnalysis),
          ("article_result", vDict errDict)], ["crawl", "analyze", "write"])) :=
  ⟨(url_to_article_first_failure_final (stubAgents errDict [] [] [])
      "u" "professional" "general" 500 true true _ _ _ rfl rfl rfl).1 rfl,
   (url_to_article_first_failure_final (stubAgents okCrawl errDict [] [])
      "u" "professional" "general" 500 true true _ _ _ rfl rfl rfl).2.1 rfl rfl,
   (url_to_article_first_failure_final (stubAgents okCrawl okAnalysis errDict [])
      "u" "professional" "general" 500 true true _ _ _ rfl rfl rfl).2.2 rfl rfl rfl⟩

/-- C1 (counterexample): run the WeChat pipeline with a publisher that
returns `success=False`.  The workflow records `publish_success=False`, yet
the task ends `completed` — not `failed` — with no error recorded; so a
Publish failure does not set status Failed with errorInfo as claimed. -/
theorem publish_failure_not_marked_failed :
    c1Workflow.1.lookup "publish_success" = some (vBool false)
    ∧ (c1FinalStore.lookup "t1").map Task.status = some TaskStatus.completed
    ∧ (c1FinalStore.lookup "t1").map Task.error = some none
    ∧ (c1FinalStore.lookup "t1").map Task.message
      = some "Article created, but publishing failed" := by
  refine ⟨rfl, rfl, rfl, rfl⟩

/-- When all three stages succeed, `url_to_article` returns the success dict
holding each stage's output. -/
theorem url_to_article_success (ag : Agents) (url st au : String) (wc : Nat)
    (im lk : Bool) (c a w : Dict)
    (hc : c = ag.crawl url im lk)
    (ha : a = ag.analyze (c.getD "title" (vStr "")) (c.getD "content" (vStr ""))
      (c.getD "images" (vList [])) (c.getD "links" (vList [])))
    (hw : w = ag.write a st au wc)
    (hcok : stageFails c = false) (haok : stageFails a = false)
    (hwok : stageFails w = false) :
    url_to_article ag url st au wc im lk
      = ([("success", vBool true), ("crawl_result", vDict c),
          ("analysis_result", vDict a), ("article_result", vDict w)],
         ["crawl", "analyze", "write"]) := by
  subst hw; subst ha; subst hc
  simp [url_to_article, hcok, haok, hwok]

/-- When the first three stages succeed and the publisher result is empty or
has a falsy `success`, `url_to_wechat` returns `success=True` with
`publish_success=False` and all stage results. -/
theorem url_to_wechat_publish_fail (ag : Agents) (url st au author : String)
    (draft : Bool) (c a w p : Dict)
    (hc : c = ag.crawl url true false)
    (ha : a = ag.analyze (c.getD "title" (vStr "")) (c.getD "content" (vStr ""))
      (c.getD "images" (vList [])) (c.getD "links" (vList [])))
    (hw : w = ag.write a st au 1000)
    (hp : p = ag.publish w author draft "wechat")
    (hcok : stageFails c = false) (haok : stageFails a = false)
    (hwok : stageFails w = false)
    (hpfail : (p.isEmpty || !(truthy (p.getD "success" vNone))) = true) :
    url_to_wechat ag url st au author draft
      = ([("success", vBool true), ("publish_success", vBool false),
          ("crawl_result", vDict c), ("analysis_result", vDict a),
          ("article_result", vDict w), ("publish_result", vDict p)],
         ["crawl", "analyze", "write", "publish"]) := by
  have haw := url_to_article_success ag url st au 1000 true false c a w hc ha hw hcok haok hwok
  have hgs : truthy (Dict.getD [("success", vBool true), ("crawl_result", vDict c),
      ("analysis_result", vDict a), ("article_result", vDict w)] "success" vNone) = true := rfl
  have hga : (Dict.getD [("success", vBool true), ("crawl_result", vDict c),
      ("analysis_result", vDict a), ("article_result", vDict w)] "article_result"
      (vDict [])).asDict = w := rfl
  have hgc : Dict.getD [("success", vBool true), ("crawl_result", vDict c),
      ("analysis_result", vDict a), ("article_result", vDict w)] "crawl_result" vNone
      = vDict c := rfl
  have hgan : Dict.getD [("success", vBool true), ("crawl_result", vDict c),
      ("analysis_result", vDict a), ("article_result", vDict w)] "analysis_result" vNone
      = vDict a := rfl
  have hgar : Dict.getD [("success", vBool true), ("crawl_result", vDict c),
      ("analysis_result", vDict a), ("article_result", vDict w)] "article_result" vNone
      = vDict w := rfl
  rw [url_to_wechat, haw]
  simp only [hgs, hga, hgc, hgan, hgar, ← hp, hpfail, Bool.not_true, Bool.or_false,
    Bool.false_or, if_true, if_false, Bool.not_false, ite_true, ite_false]
  simp

/-- C1 (amended): when the first three stages succeed and Publish fails, the
orchestrator still returns `success=True` with `publish_success=False` and
all stage results; the processor therefore marks the task Completed with
message "Article created, but publishing failed" and leaves the task's error
field untouched.  Publish is the last stage and each stage ran exactly once,
so no further stages execute. -/
theorem url_to_wechat_publish_failure_completes (ag : Agents)
    (url st au author : String) (draft : Bool)
    (t0 : Nat) (s : Store) (tid : String) (t : Task) (c a w p : Dict)
    (hc : c = ag.crawl url true false)
    (ha : a = ag.analyze (c.getD "title" (vStr "")) (c.getD "content" (vStr ""))
      (c.getD "images" (vList [])) (c.getD "links" (vList [])))
    (hw : w = ag.write a st au 1000)
    (hp : p = ag.publish w author draft "wechat")
    (hcok : stageFails c = false) (haok : stageFails a = false)
    (hwok : stageFails w = false)
    (hpfail : (p.isEmpty || !(truthy (p.getD "success" vNone))) = true)
    (ht : s.lookup tid = some t) :
    (url_to_wechat ag url st au author draft).2 = ["crawl", "analyze", "write", "publish"]
    ∧ (url_to_wechat ag url st au author draft).1.lookup "publish_success"
      = some (vBool false)
    ∧ ((process_url_to_wechat_task t0 s tid
        (.ok (url_to_wechat ag url st au author draft).1)).lookup tid).map Task.status
      = some TaskStatus.completed
    ∧ ((process_url_to_wechat_task t0 s tid
        (.ok (url_to_wechat ag url st au author draft).1)).lookup tid).map Task.error
      = some t.error
    ∧ ((process_url_to_wechat_task t0 s tid
        (.ok (url_to_wechat ag url st au author draft).1)).lookup tid).map Task.message
      = some "Article created, but publishing failed" := by
  have hwed := url_to_wechat_publish_fail ag url st au author draft c a w p
    hc ha hw hp hcok haok hwok hpfail
  rw [hwed]
  have h2 := update_task_lookup_present t0 wechatProcessingMut ht
  have h3 := update_task_lookup_present (t0 + 1)
    (wechatTerminalMut (t0 + 1) (.ok
      [("success", vBool true), ("publish_success", vBool false),
       ("crawl_result", vDict c), ("analysis_result", vDict a),
       ("article_result", vDict w), ("publish_result", vDict p)])) h2
  refine ⟨rfl, rfl, ?_, ?_, ?_⟩ <;>
    · simp only [process_url_to_wechat_task]
      rw [h3]
      simp [wechatTerminalMut, wechatProcessingMut, applyMut, Dict.getD, Dict.lookup, truthy]

/-- C1 (amended, witness): the amended theorem instantiated on
`wechatStubAgents` and a freshly created task. -/
theorem url_to_wechat_publish_failure_completes_witness :
    (url_to_wechat wechatStubAgents "http://example.com" "professional" "general"
      "KX Smart Creation" false).2 = ["crawl", "analyze", "write", "publish"]
    ∧ ((process_url_to_wechat_task 1 (create_task 0 [] "t1" "url_to_wechat") "t1"
        (.ok (url_to_wechat wechatStubAgents "http://example.com" "professional" "general"
          "KX Smart Creation" false).1)).lookup "t1").map Task.status
      = some TaskStatus.completed := by
  have h := url_to_wechat_publish_failure_completes wechatStubAgents "http://example.com"
    "professional" "general" "KX Smart Creation" false 1
    (create_task 0 [] "t1" "url_to_wechat") "t1" wechatPendingRecord0
    okCrawl okAnalysis okArticle failPublish rfl rfl rfl rfl rfl rfl rfl rfl rfl
  exact ⟨h.1, h.2.2.1⟩

/-! ## Claim theorems: failed tasks and the result endpoint -/

/-- C2 (counterexample): with crawl and analyze succeeding and write failing,
the orchestrator's transient return value does hold both prior stage outputs,
but the processor's failure branch stores none of them: the task record's
`data` is `None` and `GET /api/task/{id}/result` returns only the error
message — not the Fetch and Analyze results the claim promises. -/
theorem failed_task_result_drops_prior_stage_results :
    c2Workflow.1.lookup "crawl_result" = some (vDict okCrawl)
    ∧ c2Workflow.1.lookup "analysis_result" = some (vDict okAnalysis)
    ∧ (get_task_result c2FinalStore "t2").1
      = .ok { task_id := "t2", status := .failed, data := none
              error := some (vStr "stage blew up")
              created_at := 0, completed_at := some 2 } := by
  refine ⟨rfl, rfl, rfl⟩

/-- C2 (amended): for every run in which crawl and analyze succeed and write
fails, the failed task's result endpoint exposes `data=None` — the prior
stage outputs live only in the orchestrator's transient return value (which
does contain them), never in the store. -/
theorem failed_task_result_data_is_none (ag : Agents)
    (url st au : String) (wc : Nat) (im lk : Bool) (c a w : Dict)
    (t0 : Nat) (s0 : Store) (tid : String)
    (hc : c = ag.crawl url im lk)
    (ha : a = ag.analyze (c.getD "title" (vStr "")) (c.getD "content" (vStr ""))
      (c.getD "images" (vList [])) (c.getD "links" (vList [])))
    (hw : w = ag.write a st au wc)
    (hcok : stageFails c = false) (haok : stageFails a = false)
    (hwfail : stageFails w = true) :
    (url_to_article ag url st au wc im lk).1.lookup "crawl_result" = some (vDict c)
    ∧ (url_to_article ag url st au wc im lk).1.lookup "analysis_result" = some (vDict a)
    ∧ articleS3 t0 s0 tid (.ok (url_to_article ag url st au wc im lk).1)
      = process_url_to_article_task (t0 + 1) (articleS1 t0 s0 tid) tid
          (.ok (url_to_article ag url st au wc im lk).1)
    ∧ (get_task_result (articleS3 t0 s0 tid (.ok (url_to_article ag url st au wc im lk).1)) tid).1
      = .ok { task_id := tid, status := .failed, data := none
              error := some (w.getD "error" (vStr "Failed to write article"))
              created_at := t0, completed_at := some (t0 + 2) } := by
  have hart : url_to_article ag url st au wc im lk
      = ([("success", vBool false),
          ("error", w.getD "error" (vStr "Failed to write article")),
          ("crawl_result", vDict c), ("analysis_result", vDict a),
          ("article_result", vDict w)], ["crawl", "analyze", "write"]) := by
    subst hw; subst ha; subst hc
    simp [url_to_article, hcok, haok, hwfail]
  rw [hart]
  refine ⟨rfl, rfl, rfl, ?_⟩
  rw [get_task_result, articleS3_lookup]
  simp [articleFinalRecord, Dict.getD, Dict.lookup, truthy]

/-- C2 (amended, witness): the amended theorem instantiated on `c2Agents`. -/
theorem failed_task_result_data_is_none_witness :
    (get_task_result (articleS3 0 [] "t2"
        (.ok (url_to_article c2Agents "http://example.com" "professional" "general" 500 true true).1)) "t2").1
      = .ok { task_id := "t2", status := .failed, data := none
              error := some (vStr "stage blew up")
              created_at := 0, completed_at := some 2 } := by
  have h := failed_task_result_data_is_none c2Agents "http://example.com" "professional"
    "general" 500 true true okCrawl okAnalysis errDict 0 [] "t2" rfl rfl rfl rfl rfl rfl
  exact h.2.2.2

/-! ## Dict key lemmas -/

theorem Dict.lookup_set_eq (d : Dict) (k : String) (v : Val) :
    (d.set k v).lookup k = some v := by
  induction d with
  | nil => simp [Dict.set, Dict.lookup]
  | cons hd tl ih =>
    obtain ⟨k', v'⟩ := hd
    cases h : (k' == k) with
    | true => simp [Dict.set, Dict.lookup, h]
    | false => simp [Dict.set, Dict.lookup, h, ih]

theorem Dict.lookup_set_ne (d : Dict) (k k2 : String) (v : Val) (h : (k == k2) = false) :
    (d.set k v).lookup k2 = d.lookup k2 := by
  induction d with
  | nil => simp [Dict.set, Dict.lookup, h]
  | cons hd tl ih =>
    obtain ⟨k', v'⟩ := hd
    cases hk : (k' == k) with
    | true =>
      have : (k' == k2) = false := by
        have hk' : k' = k := by simpa using hk
        simpa [hk'] using h
      simp [Dict.set, Dict.lookup, hk, h, this]
    | false => simp [Dict.set, Dict.lookup, hk, ih]

theorem Dict.hasKey_set_self (d : Dict) (k : String) (v : Val) :
    (d.set k v).hasKey k = true := by
  simp [Dict.hasKey, Dict.lookup_set_eq]

theorem Dict.hasKey_set_mono (d : Dict) (k k2 : String) (v : Val)
    (h : d.hasKey k2 = true) : (d.set k v).hasKey k2 = true := by
  cases hk : (k == k2) with
  | true =>
    have hk' : k = k2 := by simpa using hk
    simpa [hk'] using Dict.hasKey_set_self d k2 v
  | false => simpa [Dict.hasKey, Dict.lookup_set_ne d k k2 v hk] using h

theorem Dict.hasKey_set_ne (d : Dict) (k k2 : String) (v : Val)
    (h : (k == k2) = false) : (d.set k v).hasKey k2 = d.hasKey k2 := by
  simp [Dict.hasKey, Dict.lookup_set_ne d k k2 v h]

theorem Dict.lookup_append_of_hasKey (d1 d2 : Dict) (k : String)
    (h : d1.hasKey k = true) : (d1 ++ d2).lookup k = d1.lookup k := by
  induction d1 with
  | nil => simp [Dict.hasKey, Dict.lookup] at h
  | cons hd tl ih =>
    obtain ⟨k', v'⟩ := hd
    cases hk : (k' == k) with
    | true => simp [Dict.lookup, hk]
    | false =>
      have h' : Dict.hasKey tl k = true := by
        simpa [Dict.hasKey, Dict.lookup, hk] using h
      simp [Dict.lookup, hk, ih h']

theorem Dict.lookup_append_of_not_hasKey (d1 d2 : Dict) (k : String)
    (h : d1.hasKey k = false) : (d1 ++ d2).lookup k = d2.lookup k := by
  induction d1 with
  | nil => simp [Dict.lookup]
  | cons hd tl ih =>
    obtain ⟨k', v'⟩ := hd
    cases hk : (k' == k) with
    | true => simp [Dict.hasKey, Dict.lookup, hk] at h
    | false =>
      have h' : Dict.hasKey tl k = false := by
        simpa [Dict.hasKey, Dict.lookup, hk] using h
      simp [Dict.lookup, hk, ih h']

theorem Dict.hasKey_setdefault_self (d : Dict) (k : String) (v : Val) :
    (d.setdefault k v).hasKey k = true := by
  unfold Dict.setdefault
  cases h : d.hasKey k with
  | true => simp [h]
  | false =>
    simp only [h, Bool.false_eq_true, if_false]
    simp [Dict.hasKey, Dict.lookup_append_of_not_hasKey d [(k, v)] k h, Dict.lookup]

theorem Dict.hasKey_setdefault_mono (d : Dict) (k k2 : String) (v : Val)
    (h : d.hasKey k2 = true) : (d.setdefault k v).hasKey k2 = true := by
  unfold Dict.setdefault
  cases hk : d.hasKey k with
  | true => simpa [hk] using h
  | false =>
    simp only [hk, Bool.false_eq_true, if_false]
    simpa [Dict.hasKey, Dict.lookup_append_of_hasKey d [(k, v)] k2 h] using h

theorem Dict.hasKey_setdefault_ne (d : Dict) (k k2 : String) (v : Val)
    (h : (k == k2) = false) : (d.setdefault k v).hasKey k2 = d.hasKey k2 := by
  unfold Dict.setdefault
  cases hk : d.hasKey k with
  | true => simp [hk]
  | false =>
    simp only [hk, Bool.false_eq_true, if_false]
    cases h2 : d.hasKey k2 with
    | true => simpa [Dict.hasKey, Dict.lookup_append_of_hasKey d [(k, v)] k2 h2] using h2
    | false =>
      simp [Dict.hasKey, Dict.lookup_append_of_not_hasKey d [(k, v)] k2 h2, Dict.lookup, h]

/-- `setdefault` on a present key leaves the dict unchanged. -/
theorem Dict.setdefault_of_hasKey (d : Dict) (k : String) (v : Val)
    (h : d.hasKey k = true) : d.setdefault k v = d := by
  simp [Dict.setdefault, h]

/-- Every dict `ensureArticleFields` successfully returns carries the six
article keys. -/
theorem ensureArticleFields_hasKeys (analysis : Dict) (style : String) (d0 d : Dict)
    (h : ensureArticleFields analysis style d0 = .ok d) :
    d.hasKey "title" = true ∧ d.hasKey "content" = true ∧ d.hasKey "summary" = true
    ∧ d.hasKey "tags" = true ∧ d.hasKey "word_count" = true
    ∧ d.hasKey "style" = true := by
  unfold ensureArticleFields at h
  split at h
  · exact absurd h (by simp)
  · split at h
    · exact absurd h (by simp)
    · injection h with hd
      subst hd
      refine ⟨?_, ?_, ?_, ?_, ?_, ?_⟩ <;>
        simp [Dict.hasKey_set_self, Dict.hasKey_set_ne, Dict.hasKey_setdefault_self,
          Dict.hasKey_setdefault_ne]

/-- `ensureArticleFields` neither adds nor removes an `"error"` key. -/
theorem ensureArticleFields_error_key (analysis : Dict) (style : String) (d0 d : Dict)
    (h : ensureArticleFields analysis style d0 = .ok d) :
    d.hasKey "error" = d0.hasKey "error" := by
  unfold ensureArticleFields at h
  split at h
  · exact absurd h (by simp)
  · split at h
    · exact absurd h (by simp)
    · injection h with hd
      subst hd
      simp [Dict.hasKey_set_ne, Dict.hasKey_setdefault_ne]

/-- Whatever dict the body of `WriterAgent.write` returns for a non-empty
analysis carries the six article keys. -/
theorem writeCore_ok_keys (analysis : Dict) (mc : ModelCase) (style : String)
    (d : Dict) (hne : analysis.isEmpty = false)
    (h : writeCore analysis mc style = .ok d) :
    d.hasKey "title" = true ∧ d.hasKey "content" = true ∧ d.hasKey "summary" = true
    ∧ d.hasKey "tags" = true ∧ d.hasKey "word_count" = true
    ∧ d.hasKey "style" = true := by
  unfold writeCore at h
  rw [if_neg (by simp [hne])] at h
  split at h
  · exact absurd h (by simp)
  · split at h
    · exact absurd h (by simp)
    · split at h
      · exact absurd h (by simp)
      · exact ensureArticleFields_hasKeys analysis style _ d h

/-! ## Claim theorems: PublisherAgent -/

/-- C10 (confirmed): `PublisherAgent.publish` is a total function into
dictionaries (its Python outer `except` converts any escaping exception into
an error dict), and its result carries `success=False` whenever the article
is empty, lacks a truthy title or content, or the platform is anything other
than `"wechat"`. -/
theorem publisher_publish_validation (article : Dict) (platform : String)
    (w : WeChatOutcome) :
    (article.isEmpty = true →
      PublisherAgent.publish article platform w
        = [("error", vStr "No article provided"), ("success", vBool false)])
    ∧ (article.isEmpty = false →
      (truthy (article.getD "title" vNone) = false
        ∨ truthy (article.getD "content" vNone) = false) →
      PublisherAgent.publish article platform w
        = [("error", vStr "Article missing required fields"), ("success", vBool false)])
    ∧ (platform ≠ "wechat" →
      (PublisherAgent.publish article platform w).lookup "success"
        = some (vBool false)) := by
  refine ⟨?_, ?_, ?_⟩
  · intro h
    simp [PublisherAgent.publish, h]
  · intro h hv
    rcases hv with hv | hv <;> simp [PublisherAgent.publish, h, hv]
  · intro h
    have hpl : (platform == "wechat") = false := by
      simpa using h
    cases he : article.isEmpty with
    | true => simp [PublisherAgent.publish, he, Dict.lookup]
    | false =>
      cases hb : (!(truthy (Dict.getD article "title" vNone))
          || !(truthy (Dict.getD article "content" vNone))) with
      | true =>
        rcases Bool.or_eq_true_iff.mp hb with hv | hv
        · have hv' : truthy (Dict.getD article "title" vNone) = false := by
            simpa using hv
          simp [PublisherAgent.publish, he, hv', Dict.lookup]
        · have hv' : truthy (Dict.getD article "content" vNone) = false := by
            simpa using hv
          simp [PublisherAgent.publish, he, hv', Dict.lookup]
      | false =>
        have h1 : truthy (Dict.getD article "title" vNone) = true := by
          have := (Bool.or_eq_false_iff.mp hb).1
          simpa using this
        have h2 : truthy (Dict.getD article "content" vNone) = true := by
          have := (Bool.or_eq_false_iff.mp hb).2
          simpa using this
        simp [PublisherAgent.publish, he, h1, h2, hpl, Dict.lookup]

/-- C10 (witness): the three rejection conditions instantiated concretely —
an empty article, an article without content, and an unsupported platform. -/
theorem publisher_publish_validation_witness :
    (PublisherAgent.publish [] "wechat" .importFailed
      = [("error", vStr "No article provided"), ("success", vBool false)])
    ∧ (PublisherAgent.publish [("title", vStr "T")] "wechat" .importFailed
      = [("error", vStr "Article missing required fields"), ("success", vBool false)])
    ∧ ((PublisherAgent.publish okArticle "weibo" .importFailed).lookup "success"
      = some (vBool false)) :=
  ⟨(publisher_publish_validation [] "wechat" .importFailed).1 rfl,
   (publisher_publish_validation [("title", vStr "T")] "wechat" .importFailed).2.1
     rfl (Or.inr rfl),
   (publisher_publish_validation okArticle "weibo" .importFailed).2.2 (by decide)⟩

/-! ## Claim theorems: WriterAgent -/

/-- Any dict `_create_fallback_article` successfully returns has exactly the
six article fields — in particular no `"error"` key — and carries the raw
response text as content. -/
theorem create_fallback_article_keys (txt : String) (analysis : Dict) (style : String)
    (fb : Dict) (h : create_fallback_article txt analysis style = .ok fb) :
    fb.hasKey "title" = true ∧ fb.hasKey "content" = true ∧ fb.hasKey "summary" = true
    ∧ fb.hasKey "tags" = true ∧ fb.hasKey "word_count" = true ∧ fb.hasKey "style" = true
    ∧ fb.hasKey "error" = false ∧ fb.lookup "content" = some (vStr txt) := by
  unfold create_fallback_article at h
  split at h
  · exact absurd h (by simp)
  · split at h
    · exact absurd h (by simp)
    · split at h
      · exact absurd h (by simp)
      · split at h
        · exact absurd h (by simp)
        · injection h with hd
          subst hd
          refine ⟨rfl, rfl, rfl, rfl, rfl, rfl, rfl, rfl⟩

/-- With a string-like (or absent) summary and a list-like (or absent)
themes entry, `_create_fallback_article` always succeeds. -/
theorem create_fallback_article_isOk (txt : String) (analysis : Dict) (style : String)
    (hsum : analysis.lookup "summary" = none
      ∨ ∃ s, analysis.lookup "summary" = some (vStr s))
    (hth : analysis.lookup "themes" = none
      ∨ ∃ l, analysis.lookup "themes" = some (vList l)) :
    ∃ fb, create_fallback_article txt analysis style = .ok fb := by
  have ht0 : ∃ s0, fallbackTitle0 txt analysis = .ok (vStr s0) := by
    unfold fallbackTitle0
    cases hl : (((txt.splitOn "\n").map String.trim).filter (fun l => !l.isEmpty)).head? with
    | some l => exact ⟨l, rfl⟩
    | none =>
      rcases hsum with h | ⟨s, h⟩
      · exact ⟨"Article".take 100, by simp [Dict.getD, h, pySlice]⟩
      · exact ⟨s.take 100, by simp [Dict.getD, h, pySlice]⟩
  obtain ⟨s0, ht0⟩ := ht0
  have hsl : ∃ v, pySlice (analysis.getD "summary" (vStr "")) 200 = .ok v := by
    rcases hsum with h | ⟨s, h⟩
    · exact ⟨vStr ("".take 200), by simp [Dict.getD, h, pySlice]⟩
    · exact ⟨vStr (s.take 200), by simp [Dict.getD, h, pySlice]⟩
  have htl : ∃ v, pySlice (analysis.getD "themes" (vList [])) 5 = .ok v := by
    rcases hth with h | ⟨l, h⟩
    · exact ⟨vList (List.take 5 []), by simp [Dict.getD, h, pySlice]⟩
    · exact ⟨vList (List.take 5 l), by simp [Dict.getD, h, pySlice]⟩
  obtain ⟨v1, hsl⟩ := hsl
  obtain ⟨v2, htl⟩ := htl
  unfold create_fallback_article
  rw [ht0]
  simp only [pyAsStr, hsl, htl]
  exact ⟨_, rfl⟩

/-- C9 (confirmed): for a non-empty analysis, `WriterAgent.write` returns
either a dict with an `"error"` key (only when an exception escapes the
inner handlers, e.g. a badly typed analysis value) or a dict with all of
`title`, `content`, `summary`, `tags`, `word_count` and `style`; and in
particular, for a well-typed analysis, a model-call failure or an
unparseable model response (`mc = innerRaised`) yields a complete fallback
article with no `"error"` key — not an error result. -/
theorem writer_write_error_or_complete (analysis : Dict) (mc : ModelCase)
    (style : String) (hne : analysis.isEmpty = false) :
    ((WriterAgent.write analysis mc style).hasKey "error" = true
      ∨ ((WriterAgent.write analysis mc style).hasKey "title" = true
        ∧ (WriterAgent.write analysis mc style).hasKey "content" = true
        ∧ (WriterAgent.write analysis mc style).hasKey "summary" = true
        ∧ (WriterAgent.write analysis mc style).hasKey "tags" = true
        ∧ (WriterAgent.write analysis mc style).hasKey "word_count" = true
        ∧ (WriterAgent.write analysis mc style).hasKey "style" = true))
    ∧ ((analysis.lookup "summary" = none
        ∨ ∃ s, analysis.lookup "summary" = some (vStr s)) →
      (analysis.lookup "themes" = none
        ∨ ∃ l, analysis.lookup "themes" = some (vList l) ∧ l.all isStrVal = true) →
      (analysis.lookup "key_points" = none
        ∨ ∃ l, analysis.lookup "key_points" = some (vList l) ∧ l.all isStrVal = true) →
      mc = ModelCase.innerRaised →
      ((WriterAgent.write analysis mc style).hasKey "error" = false
        ∧ (WriterAgent.write analysis mc style).hasKey "title" = true
        ∧ (WriterAgent.write analysis mc style).hasKey "content" = true
        ∧ (WriterAgent.write analysis mc style).hasKey "summary" = true
        ∧ (WriterAgent.write analysis mc style).hasKey "tags" = true
        ∧ (WriterAgent.write analysis mc style).hasKey "word_count" = true
        ∧ (WriterAgent.write analysis mc style).hasKey "style" = true)) := by
  constructor
  · cases hw : writeCore analysis mc style with
    | error e =>
      left
      unfold WriterAgent.write
      rw [hw]
      rfl
    | ok d =>
      right
      have hk := writeCore_ok_keys analysis mc style d hne hw
      unfold WriterAgent.write
      rw [hw]
      exact hk
  · intro hsum hth hkp hmc
    subst hmc
    have hth' : analysis.lookup "themes" = none
        ∨ ∃ l, analysis.lookup "themes" = some (vList l) := by
      rcases hth with h | ⟨l, h, _⟩
      · exact Or.inl h
      · exact Or.inr ⟨l, h⟩
    have hj1 : pyJoinOk (analysis.getD "key_points" (vList [])) = .ok () := by
      rcases hkp with h | ⟨l, h, hall⟩
      · simp [Dict.getD, h, pyJoinOk]
      · simp [Dict.getD, h, pyJoinOk, hall]
    have hj2 : pyJoinOk (analysis.getD "themes" (vList [])) = .ok () := by
      rcases hth with h | ⟨l, h, hall⟩
      · simp [Dict.getD, h, pyJoinOk]
      · simp [Dict.getD, h, pyJoinOk, hall]
    obtain ⟨fb, hfb⟩ :=
      create_fallback_article_isOk "Failed to generate" analysis style hsum hth'
    have hkfb := create_fallback_article_keys "Failed to generate" analysis style fb hfb
    have hsl : ∃ v, pySlice (analysis.getD "summary" (vStr "")) 200 = .ok v := by
      rcases hsum with h | ⟨s, h⟩
      · exact ⟨vStr ("".take 200), by simp [Dict.getD, h, pySlice]⟩
      · exact ⟨vStr (s.take 200), by simp [Dict.getD, h, pySlice]⟩
    obtain ⟨v1, hsl⟩ := hsl
    have hd4 : (((fb.setdefault "title" (vStr "Untitled Article")).setdefault
        "content" (vStr "Content not generated")).setdefault "summary" v1).setdefault
        "tags" (analysis.getD "themes" (vList [])) = fb := by
      rw [Dict.setdefault_of_hasKey _ _ _ hkfb.1,
          Dict.setdefault_of_hasKey _ _ _ hkfb.2.1,
          Dict.setdefault_of_hasKey _ _ _ hkfb.2.2.1,
          Dict.setdefault_of_hasKey _ _ _ hkfb.2.2.2.1]
    have hgc : Dict.getD fb "content" (vStr "") = vStr "Failed to generate" := by
      simp [Dict.getD, hkfb.2.2.2.2.2.2.2]
    have hens : ensureArticleFields analysis style fb
        = .ok ((fb.setdefault "word_count"
            (vNat (((("Failed to generate" : String).split Char.isWhitespace).filter
              (fun w => !w.isEmpty)).length))).set "style" (vStr style)) := by
      unfold ensureArticleFields
      simp only [hsl]
      rw [hd4, hgc]
      simp [pySplitCount]
    have hwc : writeCore analysis .innerRaised style
        = .ok ((fb.setdefault "word_count"
            (vNat (((("Failed to generate" : String).split Char.isWhitespace).filter
              (fun w => !w.isEmpty)).length))).set "style" (vStr style)) := by
      unfold writeCore
      rw [if_neg (by simp [hne])]
      rw [hj1, hj2]
      unfold articleFromModel
      rw [hfb]
      exact hens
    have herr := ensureArticleFields_error_key analysis style fb _ hens
    have hk := writeCore_ok_keys analysis .innerRaised style _ hne hwc
    unfold WriterAgent.write
    rw [hwc]
    refine ⟨?_, hk.1, hk.2.1, hk.2.2.1, hk.2.2.2.1, hk.2.2.2.2.1, hk.2.2.2.2.2⟩
    rw [herr, hkfb.2.2.2.2.2.2.1]

/-- C9 (witness): the "in particular" half instantiated on the concrete
well-typed analysis `okAnalysis` with a failed model call — the result is a
complete fallback article with no error key. -/
theorem writer_write_error_or_complete_witness :
    (WriterAgent.write okAnalysis .innerRaised "professional").hasKey "error" = false
    ∧ (WriterAgent.write okAnalysis .innerRaised "professional").hasKey "title" = true
    ∧ (WriterAgent.write okAnalysis .innerRaised "professional").hasKey "content" = true
    ∧ (WriterAgent.write okAnalysis .innerRaised "professional").hasKey "summary" = true
    ∧ (WriterAgent.write okAnalysis .innerRaised "professional").hasKey "tags" = true
    ∧ (WriterAgent.write okAnalysis .innerRaised "professional").hasKey "word_count" = true
    ∧ (WriterAgent.write okAnalysis .innerRaised "professional").hasKey "style" = true :=
  (writer_write_error_or_complete okAnalysis .innerRaised "professional" rfl).2
    (Or.inr ⟨"S", rfl⟩) (Or.inr ⟨[vStr "tech"], rfl, rfl⟩) (Or.inl rfl) rfl

end KX
